import Mathlib

/-!
# Verification of the PDF structural-extraction pipeline

Shallow embedding of `src/core/enhanced_extractor.py` (class
`EnhancedPDFExtractor`) and the scratch-directory cleanup of
`src/core/extractor.py` (class `PDFExtractor`), together with proofs of the
spec's claims about block classification, role assignment, document
aggregation, table reconstruction, Markdown rendering, OCR failure isolation,
image extraction and cleanup.

Python floats (font sizes, page coordinates) are embedded as exact rationals;
Python strings as `String`; fallible external calls (native table detection,
image materialization, OCR) as `Except`-valued inputs.
-/

/-! ## Python string primitives -/

/-- The whitespace characters recognised by Python's `str.strip()` and the
regex class `\s` (restricted to ASCII: space, tab, newline, carriage return,
vertical tab, form feed). -/
def isPySpace (c : Char) : Bool :=
  c == ' ' || c == '\t' || c == '\n' || c == '\r' ||
  c == Char.ofNat 11 || c == Char.ofNat 12

/-- Python `str.strip()` on a character list. -/
def pyStripList (l : List Char) : List Char :=
  ((l.dropWhile isPySpace).reverse.dropWhile isPySpace).reverse

/-- Python `str.strip()`. -/
def pyStrip (s : String) : String :=
  String.mk (pyStripList s.toList)

/-- Python `str.endswith('\n')`. -/
def endsWithNewline (s : String) : Bool :=
  match s.toList.getLast? with
  | some c => c == '\n'
  | none => false

/-- Python `re.sub(r'\s+', ' ', s)` scanner; the flag records whether the scan
is inside a whitespace run whose replacement space was already emitted. -/
def normWsAux : Bool → List Char → List Char
  | _, [] => []
  | inRun, c :: rest =>
    if isPySpace c then
      if inRun then normWsAux true rest else ' ' :: normWsAux true rest
    else c :: normWsAux false rest

/-- Python `re.sub(r'\s+', ' ', s)`: collapse every whitespace run to a single
space. -/
def normWs (s : String) : String :=
  String.mk (normWsAux false s.toList)

/-- Does the string contain two consecutive literal spaces (`'  ' in s`)? -/
def hasDoubleSpaceList : List Char → Bool
  | c :: d :: rest => (c == ' ' && d == ' ') || hasDoubleSpaceList (d :: rest)
  | _ => false

/-- Python `'  ' in s`. -/
def hasDoubleSpace (s : String) : Bool :=
  hasDoubleSpaceList s.toList

/-- Python `'\t' in s`. -/
def hasTabChar (s : String) : Bool :=
  s.toList.any (fun c => c == '\t')

/-- Scanner for Python `re.split(r'\s{2,}|\t', s)`.  The first argument is
true while the scan is consuming the remainder of a matched whitespace run of
length at least two; the second argument is the current token, reversed. -/
def splitCellsAux : Bool → List Char → List Char → List (List Char)
  | false, acc, [] => [acc.reverse]
  | true, acc, [] => [acc.reverse]
  | true, acc, c :: rest =>
    if isPySpace c then splitCellsAux true acc rest
    else splitCellsAux false (c :: acc) rest
  | false, acc, c :: rest =>
    if isPySpace c then
      match rest with
      | d :: _ =>
        if isPySpace d then acc.reverse :: splitCellsAux true [] rest
        else if c = '\t' then acc.reverse :: splitCellsAux false [] rest
        else splitCellsAux false (c :: acc) rest
      | [] =>
        if c = '\t' then [acc.reverse, []]
        else [(c :: acc).reverse]
    else splitCellsAux false (c :: acc) rest

/-- Python `re.split(r'\s{2,}|\t', s)`: split on maximal whitespace runs of
length at least two, or on a single tab. -/
def pySplitTableSep (s : String) : List String :=
  (splitCellsAux false [] s.toList).map String.mk

/-- The comma-grouping of Python's `f"{n:,}"` format: the digit list is
reversed and a comma is inserted after every third digit. -/
def commifyAux : List Char → Nat → List Char
  | [], _ => []
  | c :: cs, i =>
    if i ≠ 0 ∧ i % 3 = 0 then ',' :: c :: commifyAux cs (i + 1)
    else c :: commifyAux cs (i + 1)

/-- Python `f"{n:,}"` for a natural number. -/
def commify (n : Nat) : String :=
  String.mk ((commifyAux (toString n).toList.reverse 0).reverse)

/-! ## Data model (`§3` of the spec, dictionaries of the source) -/

/-- One span of the `page.get_text("dict")` structure: its text, its font size
in points (`span['size']`, a float embedded as a rational) and its font flag
bitfield (`span['flags']`). -/
structure TextSpan where
  text : String
  size : ℚ
  flags : Nat
deriving DecidableEq

/-- One raw block of the `page.get_text("dict")` structure: its lines, each a
list of spans, and its bounding box `(x0, y0, x1, y1)`. -/
structure SrcBlock where
  lines : List (List TextSpan)
  bbox : ℚ × ℚ × ℚ × ℚ
deriving DecidableEq

/-- The dictionary returned by `_process_text_block`. -/
structure BlockInfo where
  text : String
  page_number : Nat
  bbox : ℚ × ℚ × ℚ × ℚ
  font_size : ℚ
  is_bold : Bool
  is_italic : Bool
  is_header : Bool
  header_level : Nat
  is_footer : Bool
  is_page_header : Bool
  is_footnote : Bool
  y_position : ℚ
deriving DecidableEq

/-- A table record as produced by `_extract_tables`: cells are optional
strings because PyMuPDF's `Table.extract()` may yield `None` cells. -/
structure TableInfo where
  table_number : Nat
  page_number : Nat
  data : List (List (Option String))
  markdown : String
  bbox : ℚ × ℚ × ℚ × ℚ
deriving DecidableEq

/-- An image record as produced by `_extract_page_images`. -/
structure ImageRecord where
  image_number : Nat
  page_number : Nat
  filename : String
  path : String
  width : Nat
  height : Nat
deriving DecidableEq

/-- An OCR result as produced by `_process_images_with_ocr`. -/
structure ImageOCRResult where
  image_number : Nat
  page_number : Nat
  filename : String
  extracted_text : String
deriving DecidableEq

/-- The per-page dictionary assembled by `_extract_page_comprehensive`. -/
structure PageInfo where
  page_number : Nat
  text_blocks : List BlockInfo
  headers : List BlockInfo
  tables : List TableInfo
  images : List ImageRecord
  images_with_text : List ImageOCRResult
  footnotes : List BlockInfo
  page_headers : List BlockInfo
  page_footers : List BlockInfo
  structured_content : List BlockInfo
  raw_text : String
deriving DecidableEq

/-- The document metadata dictionary built by `_extract_pdf_metadata`
(restricted to the fields the Markdown renderer and the claims read; every
missing PDF metadata field defaults to the empty string). -/
structure DocumentMetadata where
  file_name : String
  file_size : Nat
  title : String
  author : String
  subject : String
  keywords : String
  creator : String
  producer : String
  creation_date : String
  modification_date : String
  total_pages : Nat
deriving DecidableEq

/-- The result dictionary assembled by `extract_comprehensive`: metadata, the
per-page records, the aggregated views and the derived Markdown string. -/
structure DocumentModel where
  metadata : DocumentMetadata
  pages : List PageInfo
  headers : List BlockInfo
  tables : List TableInfo
  images_with_text : List ImageOCRResult
  footnotes : List BlockInfo
  page_headers : List BlockInfo
  page_footers : List BlockInfo
  structured_content : List BlockInfo
  markdown_content : String
deriving DecidableEq

/-- A PyMuPDF pixmap, as read by `_extract_page_images`: component count `n`
(including alpha), alpha channel count, and pixel dimensions. -/
structure Pixmap where
  n : Nat
  alpha : Nat
  width : Nat
  height : Nat
deriving DecidableEq

/-- The final role of a classified block, as routed by the
`if / elif` chain of `_extract_page_comprehensive` (lines 163-172). -/
inductive Role where
  | header
  | footer
  | pageHeader
  | footnote
  | body
deriving DecidableEq

/-! ## Block extraction and classification (`_process_text_block`) -/

/-- The `self.header_font_sizes` thresholds set in
`EnhancedPDFExtractor.__init__`: `h1 = 16`, `h2 = 14`, `h3 = 12`. -/
def header_font_size_h1 : ℚ := 16

/-- The `h2` threshold of `self.header_font_sizes`. -/
def header_font_size_h2 : ℚ := 14

/-- The `h3` threshold of `self.header_font_sizes`. -/
def header_font_size_h3 : ℚ := 12

/-- The `text_content` accumulation loop of `_process_text_block`: each line
whose concatenated span text is non-blank is appended, followed by a newline
when the accumulated text does not already end with one. -/
def buildTextContent (lines : List (List TextSpan)) : String :=
  lines.foldl
    (fun tc line =>
      let lt := line.foldl (fun s sp => s ++ sp.text) ""
      if pyStrip lt ≠ "" then
        let tc2 := tc ++ lt
        if endsWithNewline tc2 then tc2 else tc2 ++ "\n"
      else tc)
    ""

/-- `EnhancedPDFExtractor._process_text_block` (lines 213-270): concatenate
span texts, average the span font sizes (0 when there are no spans), compute
bold/italic from the flag bits, classify against the font-size thresholds and
the page-relative position of the block's top y coordinate, and determine the
header level. -/
def process_text_block (block : SrcBlock) (page_num : Nat)
    (page_height page_width : ℚ) : BlockInfo :=
  let spans := block.lines.join
  let font_sizes := spans.map TextSpan.size
  let font_flags := spans.map TextSpan.flags
  let text_content := buildTextContent block.lines
  let avg_font_size : ℚ :=
    if font_sizes.isEmpty then 0 else font_sizes.sum / (font_sizes.length : ℚ)
  let is_bold := font_flags.any (fun f => f.testBit 4)
  let is_italic := font_flags.any (fun f => f.testBit 1)
  let y_position := block.bbox.2.1
  let is_header :=
    decide (header_font_size_h3 ≤ avg_font_size) &&
      (is_bold || decide (header_font_size_h1 ≤ avg_font_size))
  let is_footer := decide (page_height * (9 / 10) < y_position)
  let is_page_header := decide (y_position < page_height * (1 / 10))
  let is_footnote :=
    decide (page_height * (8 / 10) < y_position) && decide (avg_font_size < 10)
  let header_level : Nat :=
    if is_header then
      if header_font_size_h1 ≤ avg_font_size then 1
      else if header_font_size_h2 ≤ avg_font_size then 2
      else 3
    else 0
  { text := pyStrip text_content
    page_number := page_num + 1
    bbox := block.bbox
    font_size := avg_font_size
    is_bold := is_bold
    is_italic := is_italic
    is_header := is_header
    header_level := header_level
    is_footer := is_footer
    is_page_header := is_page_header
    is_footnote := is_footnote
    y_position := y_position }

/-- The role routing of `_extract_page_comprehensive` (lines 163-172): the
`if / elif` chain checks `is_header`, then `is_footer`, then
`is_page_header`, then `is_footnote`; a block matching none of them is body
text (it appears only in `structured_content`). -/
def classify_role (b : BlockInfo) : Role :=
  if b.is_header then Role.header
  else if b.is_footer then Role.footer
  else if b.is_page_header then Role.pageHeader
  else if b.is_footnote then Role.footnote
  else Role.body

/-! ## Spec-side classifier definitions

These restate `§4.2` of the spec in its own words, for comparison with the
code-side `process_text_block`. -/

/-- Modelled from the spec: the average font size of a block, "mean over
contained spans, 0 if empty". -/
def spec_avg_font_size (block : SrcBlock) : ℚ :=
  let sizes := (block.lines.join).map TextSpan.size
  if sizes.isEmpty then 0 else sizes.sum / (sizes.length : ℚ)

/-- Modelled from the spec: "block is bold if ANY contained span is bold"
(bold = flag bit 4). -/
def spec_block_bold (block : SrcBlock) : Bool :=
  (block.lines.join).any (fun sp => sp.flags.testBit 4)

/-- Modelled from the spec: `is_header ⟺ avg_font_size ≥ 12 AND (bold OR
avg_font_size ≥ 16)`. -/
def spec_is_header (s : ℚ) (b : Bool) : Prop :=
  12 ≤ s ∧ (b = true ∨ 16 ≤ s)

instance (s : ℚ) (b : Bool) : Decidable (spec_is_header s b) := by
  unfold spec_is_header; infer_instance

/-- Modelled from the spec: "Header level: 1 if avg_font_size ≥ 16; else 2 if
avg_font_size ≥ 14; else 3". -/
def spec_header_level (s : ℚ) : Nat :=
  if 16 ≤ s then 1 else if 14 ≤ s then 2 else 3

/-! ## Table reconstruction (`_extract_tables`, `_extract_tables_alternative`,
`_convert_table_to_markdown`) -/

/-- Python `str(cell or "")` on an optional-string cell: `None` becomes the
empty string, strings are unchanged. -/
def cellStr : Option String → String
  | none => ""
  | some s => s

/-- `EnhancedPDFExtractor._convert_table_to_markdown` (lines 340-357): empty
data renders to the empty string; otherwise the first row is the header row,
followed by a separator row of one `---` per header cell and one data line
per remaining row, all joined with newlines. -/
def convert_table_to_markdown (table_data : List (List (Option String))) : String :=
  match table_data with
  | [] => ""
  | header :: rest =>
    let headerLine := "| " ++ String.intercalate " | " (header.map cellStr) ++ " |"
    let sepLine := "| " ++ String.intercalate " | " (header.map (fun _ => "---")) ++ " |"
    let dataLines :=
      rest.map (fun row => "| " ++ String.intercalate " | " (row.map cellStr) ++ " |")
    String.intercalate "\n" (headerLine :: sepLine :: dataLines)

/-- The cell extraction of `_extract_tables_alternative` (line 323):
`[cell.strip() for cell in re.split(r'\s{2,}|\t', line_text) if cell.strip()]`. -/
def table_row_cells (line_text : String) : List String :=
  ((pySplitTableSep line_text).map pyStrip).filter (fun c => c ≠ "")

/-- The candidate-row scan of `_extract_tables_alternative` (lines 312-325):
for every line of every block, the concatenated, stripped span text is a
candidate row when it contains two consecutive spaces or a tab and splits
into at least two non-empty cells. -/
def candidate_rows (blocks : List SrcBlock) : List (List String) :=
  blocks.bind (fun block =>
    block.lines.filterMap (fun line =>
      let lt := pyStrip (line.foldl (fun s sp => s ++ sp.text) "")
      if lt ≠ "" ∧ (hasDoubleSpace lt || hasTabChar lt) = true then
        let cells := table_row_cells lt
        if 2 ≤ cells.length then some cells else none
      else none))

/-- `EnhancedPDFExtractor._extract_tables_alternative` (lines 302-338): when
at least two candidate rows are found, emit exactly one table for the page,
with the full page rectangle as its (approximate) bounding box. -/
def extract_tables_alternative (blocks : List SrcBlock)
    (page_width page_height : ℚ) (page_num : Nat) : List TableInfo :=
  let rows := (candidate_rows blocks).map (fun r => r.map some)
  if 2 ≤ rows.length then
    [{ table_number := 1
       page_number := page_num + 1
       data := rows
       markdown := convert_table_to_markdown rows
       bbox := (0, 0, page_width, page_height) }]
  else []

/-- A native table as detected and extracted by PyMuPDF's `page.find_tables`
plus `Table.extract()`: the extracted cell matrix and the table's bounding
box. -/
structure NativeTable where
  data : List (List (Option String))
  bbox : ℚ × ℚ × ℚ × ℚ
deriving DecidableEq

/-- `EnhancedPDFExtractor._extract_tables` (lines 272-300): the native
detection outcome is an `Except` value (PyMuPDF may raise).  On success each
detected table with a non-empty extracted matrix becomes a record numbered by
its enumeration index; the text-alignment fallback runs only in the exception
branch. -/
def extract_tables (native : Except String (List NativeTable))
    (blocks : List SrcBlock) (page_width page_height : ℚ)
    (page_num : Nat) : List TableInfo :=
  match native with
  | Except.ok page_tables =>
    page_tables.enum.filterMap (fun p =>
      if p.2.data ≠ [] then
        some { table_number := p.1 + 1
               page_number := page_num + 1
               data := p.2.data
               markdown := convert_table_to_markdown p.2.data
               bbox := p.2.bbox }
      else none)
  | Except.error _ => extract_tables_alternative blocks page_width page_height page_num

/-! ## Image extraction (`_extract_page_images`) -/

/-- The image file name `f"page_{page_num + 1}_image_{i + 1}.png"` used by
`_extract_page_images`. -/
def image_filename (page_num i : Nat) : String :=
  "page_" ++ toString (page_num + 1) ++ "_image_" ++ toString (i + 1) ++ ".png"

/-- The enumeration loop of `_extract_page_images`: each image's
materialization to a pixmap is an `Except` value (a raising `fitz.Pixmap`
call skips just that image); a materialized pixmap is recorded exactly when
`pix.n - pix.alpha < 4`, keeping the 1-based enumeration ordinal. -/
def extract_page_images_go (temp_dir : String) (page_num : Nat) :
    Nat → List (Except String Pixmap) → List ImageRecord
  | _, [] => []
  | i, r :: rest =>
    match r with
    | Except.error _ => extract_page_images_go temp_dir page_num (i + 1) rest
    | Except.ok pix =>
      if (pix.n : ℤ) - (pix.alpha : ℤ) < 4 then
        { image_number := i + 1
          page_number := page_num + 1
          filename := image_filename page_num i
          path := temp_dir ++ "/" ++ image_filename page_num i
          width := pix.width
          height := pix.height } :: extract_page_images_go temp_dir page_num (i + 1) rest
      else extract_page_images_go temp_dir page_num (i + 1) rest

/-- `EnhancedPDFExtractor._extract_page_images` (lines 359-388). -/
def extract_page_images (temp_dir : String)
    (imgs : List (Except String Pixmap)) (page_num : Nat) : List ImageRecord :=
  extract_page_images_go temp_dir page_num 0 imgs

/-! ## OCR association (`_process_images_with_ocr`) -/

/-- The per-image loop of `_process_images_with_ocr`: the external OCR call is
an `Except` value (pytesseract may raise); a raising call skips just that
image, and an output that strips to the empty string yields no record. -/
def process_images_with_ocr_go (ocr : ImageRecord → Except String String)
    (page_num : Nat) : List ImageRecord → List ImageOCRResult
  | [] => []
  | img :: rest =>
    match ocr img with
    | Except.error _ => process_images_with_ocr_go ocr page_num rest
    | Except.ok text =>
      if pyStrip text ≠ "" then
        { image_number := img.image_number
          page_number := page_num + 1
          filename := img.filename
          extracted_text := pyStrip text } :: process_images_with_ocr_go ocr page_num rest
      else process_images_with_ocr_go ocr page_num rest

/-- `EnhancedPDFExtractor._process_images_with_ocr` (lines 390-421), with OCR
available. -/
def process_images_with_ocr (images : List ImageRecord)
    (ocr : ImageRecord → Except String String) (page_num : Nat) :
    List ImageOCRResult :=
  process_images_with_ocr_go ocr page_num images

/-! ## Markdown renderer (`_generate_markdown`, lines 423-562) -/

/-- A string of `k` hash marks, Python `"#" * k`. -/
def hashMarks (k : Nat) : String :=
  String.mk (List.replicate k '#')

/-- The title and document-information section of `_generate_markdown` (lines
427-460).  The title falls back to the file name with every occurrence of
`.pdf` removed; each bullet for an optional metadata field is emitted only
when the field is non-empty. -/
def metadata_lines (m : DocumentMetadata) : List String :=
  let title0 := pyStrip m.title
  let title := if title0 = "" then m.file_name.replace ".pdf" "" else title0
  ["# " ++ title, "", "## Document Information", "",
   "- **File:** " ++ m.file_name,
   "- **Pages:** " ++ toString m.total_pages,
   "- **File Size:** " ++ commify m.file_size ++ " bytes"]
  ++ (if m.author ≠ "" then ["- **Author:** " ++ m.author] else [])
  ++ (if m.creator ≠ "" then ["- **Creator:** " ++ m.creator] else [])
  ++ (if m.producer ≠ "" then ["- **Producer:** " ++ m.producer] else [])
  ++ (if m.creation_date ≠ "" then ["- **Created:** " ++ m.creation_date] else [])
  ++ (if m.modification_date ≠ "" then ["- **Modified:** " ++ m.modification_date] else [])
  ++ (if m.subject ≠ "" then ["- **Subject:** " ++ m.subject] else [])
  ++ (if m.keywords ≠ "" then ["- **Keywords:** " ++ m.keywords] else [])
  ++ ["", "---", ""]

/-- The `headers` selection of `_generate_markdown` (line 469): blocks of the
page's `structured_content` whose `is_header` flag is set. -/
def headers_of (p : PageInfo) : List BlockInfo :=
  p.structured_content.filter (fun b => b.is_header)

/-- The `regular_content` selection of `_generate_markdown` (lines 470-473):
blocks that carry none of the four classification flags and whose stripped
text is non-empty. -/
def regular_content_of (p : PageInfo) : List BlockInfo :=
  p.structured_content.filter (fun b =>
    !b.is_header && !b.is_footer && !b.is_page_header && !b.is_footnote &&
      !(pyStrip b.text == ""))

/-- The condition of line 476: the page's H2 heading is emitted only when the
page contributed a header, regular content, a table or an OCR'd image. -/
def page_h2_cond (p : PageInfo) : Bool :=
  !(headers_of p).isEmpty || !(regular_content_of p).isEmpty ||
    !p.tables.isEmpty || !p.images_with_text.isEmpty

/-- The header rendering loop of `_generate_markdown` (lines 481-487): each
header with non-blank text is emitted at depth `min(level, 3) + 2`. -/
def header_lines_of (p : PageInfo) : List String :=
  (headers_of p).bind (fun h =>
    if pyStrip h.text ≠ "" then
      [hashMarks (min h.header_level 3 + 2) ++ " " ++ pyStrip h.text, ""]
    else [])

/-- The body-paragraph loop of `_generate_markdown` (lines 490-497): a
regular-content block is emitted (whitespace-normalized) only when its
stripped text is longer than 10 characters. -/
def body_lines_of (p : PageInfo) : List String :=
  (regular_content_of p).bind (fun b =>
    let t := pyStrip b.text
    if t ≠ "" ∧ 10 < t.length then [normWs t, ""] else [])

/-- The table rendering loop of `_generate_markdown` (lines 500-505). -/
def table_lines_of (p : PageInfo) : List String :=
  p.tables.bind (fun tb =>
    if pyStrip tb.markdown ≠ "" then
      ["### Table " ++ toString tb.table_number, "", tb.markdown, ""]
    else [])

/-- The OCR-figure rendering loop of `_generate_markdown` (lines 508-514). -/
def image_lines_of (p : PageInfo) : List String :=
  p.images_with_text.bind (fun io =>
    if pyStrip io.extracted_text ≠ "" then
      ["### [Figure " ++ toString io.image_number ++ ": Extracted Text]", "",
       pyStrip io.extracted_text, ""]
    else [])

/-- The footnote rendering of `_generate_markdown` (lines 517-523). -/
def footnote_lines_of (p : PageInfo) : List String :=
  if p.footnotes.isEmpty then []
  else
    ["### Footnotes", ""]
    ++ p.footnotes.bind (fun fn =>
        if pyStrip fn.text ≠ "" then ["- " ++ pyStrip fn.text] else [])
    ++ [""]

/-- The `useful_headers` selection of `_generate_markdown` (lines 526-527):
page-header blocks whose stripped text is non-empty and longer than 5
characters. -/
def useful_page_headers (p : PageInfo) : List BlockInfo :=
  p.page_headers.filter (fun h =>
    !(pyStrip h.text == "") && decide (5 < (pyStrip h.text).length))

/-- The `useful_footers` selection of `_generate_markdown` (lines 528-529). -/
def useful_page_footers (p : PageInfo) : List BlockInfo :=
  p.page_footers.filter (fun f =>
    !(pyStrip f.text == "") && decide (5 < (pyStrip f.text).length))

/-- The page-header rendering of `_generate_markdown` (lines 531-536). -/
def page_header_lines_of (p : PageInfo) : List String :=
  if (useful_page_headers p).isEmpty then []
  else
    ["### Page Header", ""]
    ++ (useful_page_headers p).map (fun h => pyStrip h.text)
    ++ [""]

/-- The page-footer rendering of `_generate_markdown` (lines 538-543). -/
def page_footer_lines_of (p : PageInfo) : List String :=
  if (useful_page_footers p).isEmpty then []
  else
    ["### Page Footer", ""]
    ++ (useful_page_footers p).map (fun f => pyStrip f.text)
    ++ [""]

/-- The full per-page emission of `_generate_markdown` (lines 463-543). -/
def page_markdown_lines (p : PageInfo) : List String :=
  (if page_h2_cond p then ["## Page " ++ toString p.page_number, ""] else [])
  ++ header_lines_of p ++ body_lines_of p ++ table_lines_of p
  ++ image_lines_of p ++ footnote_lines_of p
  ++ page_header_lines_of p ++ page_footer_lines_of p

/-- All lines appended to `markdown_lines` before the final blank-line
cleanup. -/
def markdown_lines (result : DocumentModel) : List String :=
  metadata_lines result.metadata ++ result.pages.bind page_markdown_lines

/-- The blank-line cleanup loop of `_generate_markdown` (lines 551-560): a
list entry stripping to the empty string is kept only when the previous entry
did not also strip to the empty string. -/
def collapse_blank_go (prevEmpty : Bool) : List String → List String
  | [] => []
  | l :: ls =>
    if pyStrip l = "" then
      if prevEmpty then collapse_blank_go true ls
      else l :: collapse_blank_go true ls
    else l :: collapse_blank_go false ls

/-- The blank-line cleanup with initial state `prev_empty = False`. -/
def collapse_blank (lines : List String) : List String :=
  collapse_blank_go false lines

/-- `EnhancedPDFExtractor._generate_markdown` (lines 423-562): emit all lines,
collapse consecutive blank entries, and join with newlines. -/
def generate_markdown (result : DocumentModel) : String :=
  String.intercalate "\n" (collapse_blank (markdown_lines result))

/-! ## Document assembly (`extract_comprehensive`, lines 44-108) -/

/-- The initial result dictionary of `extract_comprehensive` (lines 57-76):
metadata plus empty aggregates. -/
def empty_document (meta : DocumentMetadata) : DocumentModel :=
  { metadata := meta
    pages := []
    headers := []
    tables := []
    images_with_text := []
    footnotes := []
    page_headers := []
    page_footers := []
    structured_content := []
    markdown_content := "" }

/-- One iteration of the page loop of `extract_comprehensive` (lines 79-97):
append the page record and extend every aggregated view with the page's
corresponding list. -/
def add_page (acc : DocumentModel) (p : PageInfo) : DocumentModel :=
  { acc with
    pages := acc.pages ++ [p]
    headers := acc.headers ++ p.headers
    tables := acc.tables ++ p.tables
    images_with_text := acc.images_with_text ++ p.images_with_text
    footnotes := acc.footnotes ++ p.footnotes
    page_headers := acc.page_headers ++ p.page_headers
    page_footers := acc.page_footers ++ p.page_footers
    structured_content := acc.structured_content ++ p.structured_content }

/-- `EnhancedPDFExtractor.extract_comprehensive` (lines 44-108), given the
already-extracted per-page records in document page order: fold the page loop
over the initial result and generate the Markdown from the aggregate. -/
def extract_comprehensive (meta : DocumentMetadata)
    (page_infos : List PageInfo) : DocumentModel :=
  let r := page_infos.foldl add_page (empty_document meta)
  { r with markdown_content := generate_markdown r }

/-! ## Scratch-directory lifecycle (`PDFExtractor` of `src/core/extractor.py`
and `EnhancedPDFExtractor.__init__`)

The filesystem is embedded as the list of existing paths. -/

/-- `shutil.rmtree(temp_dir)`: remove the directory and everything below
it. -/
def shutil_rmtree (temp_dir : String) (fs : List String) : List String :=
  fs.filter (fun p => !(p == temp_dir || (temp_dir ++ "/").isPrefixOf p))

/-- `PDFExtractor.cleanup` (`src/core/extractor.py`, lines 522-530): when the
scratch directory exists, remove its whole tree; the method reads only the
current filesystem state, independently of anything a prior extraction call
did or raised. -/
def pdf_extractor_cleanup (temp_dir : String) (fs : List String) : List String :=
  if temp_dir ∈ fs then shutil_rmtree temp_dir fs else fs

/-- `tempfile.mkdtemp` as called by both extractors' `__init__`: create the
scratch directory. -/
def tempfile_mkdtemp (temp_dir : String) (fs : List String) : List String :=
  fs ++ [temp_dir]

/-- The filesystem effect of any single `EnhancedPDFExtractor` method call
after construction: the class's only filesystem operation is `pix.save`
inside `_extract_page_images`, which creates files; no method of the class
removes a path (the class defines no `cleanup`). -/
def enhanced_extractor_fs_step (fs : List String) (writes : List String) : List String :=
  fs ++ writes

/-- A whole `EnhancedPDFExtractor` lifetime: construction creates the scratch
directory, then each method call contributes the files it writes. -/
def enhanced_extractor_run (temp_dir : String) (calls : List (List String))
    (fs : List String) : List String :=
  calls.foldl enhanced_extractor_fs_step (tempfile_mkdtemp temp_dir fs)

/-! ## Helper lemmas on `process_text_block` -/

theorem list_any_map_eq {α β : Type} (f : α → β) (l : List α) (p : β → Bool) :
    (l.map f).any p = l.any (fun a => p (f a)) := by
  induction l with
  | nil => rfl
  | cons a t ih => simp [ih]

theorem process_text_block_font_size (block : SrcBlock) (n : Nat) (h w : ℚ) :
    (process_text_block block n h w).font_size = spec_avg_font_size block := rfl

theorem process_text_block_is_bold (block : SrcBlock) (n : Nat) (h w : ℚ) :
    (process_text_block block n h w).is_bold = spec_block_bold block := by
  simp [process_text_block, spec_block_bold, list_any_map_eq]

theorem process_text_block_is_header (block : SrcBlock) (n : Nat) (h w : ℚ) :
    (process_text_block block n h w).is_header =
      (decide (12 ≤ spec_avg_font_size block) &&
        (spec_block_bold block || decide (16 ≤ spec_avg_font_size block))) := by
  simp [process_text_block, spec_block_bold, spec_avg_font_size,
    header_font_size_h1, header_font_size_h3, list_any_map_eq]

theorem process_text_block_header_level (block : SrcBlock) (n : Nat) (h w : ℚ) :
    (process_text_block block n h w).header_level =
      if (process_text_block block n h w).is_header = true then
        spec_header_level (spec_avg_font_size block)
      else 0 := by
  simp only [process_text_block, spec_header_level, spec_avg_font_size,
    header_font_size_h1, header_font_size_h2]

theorem process_text_block_y_position (block : SrcBlock) (n : Nat) (h w : ℚ) :
    (process_text_block block n h w).y_position = block.bbox.2.1 := rfl

theorem process_text_block_is_footer (block : SrcBlock) (n : Nat) (h w : ℚ) :
    (process_text_block block n h w).is_footer =
      decide (h * (9 / 10) < block.bbox.2.1) := rfl

/-! ## Claim C1: header classification thresholds -/

/-- C1: for every text block, with `s` the arithmetic mean of its spans' font
sizes (0 when there are no spans) and `b` its any-span bold flag, the
classifier marks the block a header iff `s ≥ 12 ∧ (b ∨ s ≥ 16)`, and a header
block's level is 1 when `s ≥ 16`, else 2 when `s ≥ 14`, else 3. -/
theorem c1_header_classification (block : SrcBlock) (n : Nat) (h w : ℚ) :
    ((process_text_block block n h w).is_header = true ↔
      spec_is_header (spec_avg_font_size block) (spec_block_bold block)) ∧
    ((process_text_block block n h w).is_header = true →
      (process_text_block block n h w).header_level =
        spec_header_level (spec_avg_font_size block)) := by
  constructor
  · rw [process_text_block_is_header]
    simp [spec_is_header]
  · intro hh
    rw [process_text_block_header_level, if_pos hh]

/-- A concrete block with average font size 16 and bold false. -/
def c1_sample_block : SrcBlock :=
  { lines := [[{ text := "Heading", size := 16, flags := 0 }]]
    bbox := (0, 50, 100, 60) }

/-- C1 witness: the sample block with `s = 16`, `b = false` is classified
Header level 1. -/
theorem c1_header_classification_witness :
    (process_text_block c1_sample_block 0 100 100).is_header = true ∧
    (process_text_block c1_sample_block 0 100 100).header_level = 1 := by
  have hmain := c1_header_classification c1_sample_block 0 100 100
  have hs : spec_avg_font_size c1_sample_block = 16 := by
    norm_num [spec_avg_font_size, c1_sample_block]
  have hh : (process_text_block c1_sample_block 0 100 100).is_header = true :=
    hmain.1.mpr ⟨by rw [hs]; norm_num, Or.inr (by rw [hs])⟩
  refine ⟨hh, (hmain.2 hh).trans ?_⟩
  rw [hs]
  norm_num [spec_header_level]

/-! ## Claim C2: role exclusivity and precedence -/

/-- C2: every classified block gets exactly one final role through the fixed
precedence Header > Footer > PageHeader > Footnote > Body; header blocks have
level 1-3 and non-header blocks level 0; a block can only become Footnote
when it fails both the Footer and PageHeader spatial checks; and a block at
`y = 0.95 × page_height` whose average font size is 11 — or below 10 — is
assigned Footer. -/
theorem c2_role_assignment (block : SrcBlock) (n : Nat) (h w : ℚ) :
    (∃! r : Role, classify_role (process_text_block block n h w) = r) ∧
    ((process_text_block block n h w).is_header = true →
      1 ≤ (process_text_block block n h w).header_level ∧
        (process_text_block block n h w).header_level ≤ 3) ∧
    ((process_text_block block n h w).is_header = false →
      (process_text_block block n h w).header_level = 0) ∧
    (∀ b : BlockInfo, classify_role b = Role.footnote →
      b.is_footer = false ∧ b.is_page_header = false) ∧
    (0 < h → block.bbox.2.1 = (95 / 100) * h →
      (spec_avg_font_size block = 11 ∨ spec_avg_font_size block < 10) →
      classify_role (process_text_block block n h w) = Role.footer) := by
  refine ⟨⟨classify_role (process_text_block block n h w), rfl, fun y hy => hy.symm⟩,
    ?_, ?_, ?_, ?_⟩
  · intro hh
    rw [process_text_block_header_level, if_pos hh]
    unfold spec_header_level
    split_ifs <;> omega
  · intro hh
    rw [process_text_block_header_level]
    simp [hh]
  · intro b hb
    unfold classify_role at hb
    split_ifs at hb <;> simp_all
  · intro hpos hy havg
    have hnh : (process_text_block block n h w).is_header = false := by
      rw [process_text_block_is_header]
      have hlt : ¬ (12 ≤ spec_avg_font_size block) := by
        rcases havg with h1 | h2
        · rw [h1]; norm_num
        · linarith
      simp [hlt]
    have hf : (process_text_block block n h w).is_footer = true := by
      rw [process_text_block_is_footer, hy, decide_eq_true_eq]
      linarith
    simp [classify_role, hnh, hf]

/-- A concrete block with average font size 11 placed at `y = 0.95 × 100`. -/
def c2_sample_block : SrcBlock :=
  { lines := [[{ text := "running footer", size := 11, flags := 0 }]]
    bbox := (0, 95, 100, 97) }

/-- A concrete block with average font size 8 placed at `y = 0.95 × 100`. -/
def c2_sample_block_small : SrcBlock :=
  { lines := [[{ text := "tiny footer", size := 8, flags := 0 }]]
    bbox := (0, 95, 100, 97) }

/-- C2 witness: at `y = 0.95 × page_height` both the size-11 block and the
size-8 block are assigned Footer, not Footnote. -/
theorem c2_role_assignment_witness :
    classify_role (process_text_block c2_sample_block 0 100 100) = Role.footer ∧
    classify_role (process_text_block c2_sample_block_small 0 100 100) = Role.footer :=
  ⟨(c2_role_assignment c2_sample_block 0 100 100).2.2.2.2 (by norm_num)
      (by norm_num [c2_sample_block])
      (Or.inl (by norm_num [spec_avg_font_size, c2_sample_block])),
    (c2_role_assignment c2_sample_block_small 0 100 100).2.2.2.2 (by norm_num)
      (by norm_num [c2_sample_block_small])
      (Or.inr (by norm_num [spec_avg_font_size, c2_sample_block_small]))⟩

/-! ## Claim C3: aggregated views are concatenations of per-page lists -/

theorem foldl_add_page_pages (ps : List PageInfo) (acc : DocumentModel) :
    (ps.foldl add_page acc).pages = acc.pages ++ ps := by
  induction ps generalizing acc with
  | nil => simp
  | cons p t ih => simp [add_page, ih]

theorem foldl_add_page_headers (ps : List PageInfo) (acc : DocumentModel) :
    (ps.foldl add_page acc).headers = acc.headers ++ ps.bind PageInfo.headers := by
  induction ps generalizing acc with
  | nil => simp
  | cons p t ih => simp [add_page, ih]

theorem foldl_add_page_tables (ps : List PageInfo) (acc : DocumentModel) :
    (ps.foldl add_page acc).tables = acc.tables ++ ps.bind PageInfo.tables := by
  induction ps generalizing acc with
  | nil => simp
  | cons p t ih => simp [add_page, ih]

theorem foldl_add_page_images_with_text (ps : List PageInfo) (acc : DocumentModel) :
    (ps.foldl add_page acc).images_with_text =
      acc.images_with_text ++ ps.bind PageInfo.images_with_text := by
  induction ps generalizing acc with
  | nil => simp
  | cons p t ih => simp [add_page, ih]

theorem foldl_add_page_footnotes (ps : List PageInfo) (acc : DocumentModel) :
    (ps.foldl add_page acc).footnotes = acc.footnotes ++ ps.bind PageInfo.footnotes := by
  induction ps generalizing acc with
  | nil => simp
  | cons p t ih => simp [add_page, ih]

theorem foldl_add_page_page_headers (ps : List PageInfo) (acc : DocumentModel) :
    (ps.foldl add_page acc).page_headers =
      acc.page_headers ++ ps.bind PageInfo.page_headers := by
  induction ps generalizing acc with
  | nil => simp
  | cons p t ih => simp [add_page, ih]

theorem foldl_add_page_page_footers (ps : List PageInfo) (acc : DocumentModel) :
    (ps.foldl add_page acc).page_footers =
      acc.page_footers ++ ps.bind PageInfo.page_footers := by
  induction ps generalizing acc with
  | nil => simp
  | cons p t ih => simp [add_page, ih]

/-- C3: for every assembled document, each aggregated view equals the
concatenation, in page order, of the corresponding per-page lists — headers,
tables, footnotes, page headers, page footers and OCR results are pure
projections of the page records, never built independently. -/
theorem c3_aggregation_invariant (meta : DocumentMetadata) (pages : List PageInfo) :
    (extract_comprehensive meta pages).pages = pages ∧
    (extract_comprehensive meta pages).headers = pages.bind PageInfo.headers ∧
    (extract_comprehensive meta pages).tables = pages.bind PageInfo.tables ∧
    (extract_comprehensive meta pages).footnotes = pages.bind PageInfo.footnotes ∧
    (extract_comprehensive meta pages).page_headers = pages.bind PageInfo.page_headers ∧
    (extract_comprehensive meta pages).page_footers = pages.bind PageInfo.page_footers ∧
    (extract_comprehensive meta pages).images_with_text =
      pages.bind PageInfo.images_with_text := by
  unfold extract_comprehensive
  refine ⟨?_, ?_, ?_, ?_, ?_, ?_, ?_⟩ <;>
    simp [foldl_add_page_pages, foldl_add_page_headers, foldl_add_page_tables,
      foldl_add_page_footnotes, foldl_add_page_page_headers,
      foldl_add_page_page_footers, foldl_add_page_images_with_text, empty_document]

/-! ## Claim C5: fallback table reconstruction trigger and behavior -/

/-- The page text of the C5 scenario: one block with the two whitespace-aligned
lines. -/
def c5_sample_page : List SrcBlock :=
  [{ lines := [[{ text := "Name    Score", size := 10, flags := 0 }],
               [{ text := "Alice   90", size := 10, flags := 0 }]]
     bbox := (0, 0, 612, 792) }]

/-- C5: the fallback reconstructor runs exactly when native detection raises —
on native success the result does not depend on the page text at all, and
zero native tables yield zero tables (no fallback); and with a raising
detector over the lines `"Name    Score"` and `"Alice   90"` the result is
exactly one full-page table with rows `[["Name","Score"],["Alice","90"]]`. -/
theorem c5_fallback_trigger :
    (∀ (pts : List NativeTable) (blocks1 blocks2 : List SrcBlock) (pw ph : ℚ) (n : Nat),
      extract_tables (Except.ok pts) blocks1 pw ph n =
        extract_tables (Except.ok pts) blocks2 pw ph n) ∧
    (∀ (blocks : List SrcBlock) (pw ph : ℚ) (n : Nat),
      extract_tables (Except.ok []) blocks pw ph n = []) ∧
    (∀ (e : String) (blocks : List SrcBlock) (pw ph : ℚ) (n : Nat),
      extract_tables (Except.error e) blocks pw ph n =
        extract_tables_alternative blocks pw ph n) ∧
    extract_tables (Except.error "find_tables raised") c5_sample_page 612 792 0 =
      [{ table_number := 1
         page_number := 1
         data := [[some "Name", some "Score"], [some "Alice", some "90"]]
         markdown := "| Name | Score |\n| --- | --- |\n| Alice | 90 |"
         bbox := (0, 0, 612, 792) }] := by
  refine ⟨fun pts b1 b2 pw ph n => rfl, fun blocks pw ph n => rfl,
    fun e blocks pw ph n => rfl, ?_⟩
  rfl

/-! ## Claim C6: cell matrix to Markdown conversion -/

/-- C6: an empty matrix renders to the empty string; a non-empty matrix
renders its first row as the header row, a separator row with one `---` per
header cell, and the remaining rows as data rows, all joined by newlines; in
particular `[["A","B"],["1","2"]]` renders to exactly the three expected
lines. -/
theorem c6_table_markdown :
    convert_table_to_markdown [] = "" ∧
    convert_table_to_markdown [[some "A", some "B"], [some "1", some "2"]] =
      "| A | B |\n| --- | --- |\n| 1 | 2 |" ∧
    (∀ (hd : List (Option String)) (rest : List (List (Option String))),
      convert_table_to_markdown (hd :: rest) =
        String.intercalate "\n"
          (("| " ++ String.intercalate " | " (hd.map cellStr) ++ " |") ::
           ("| " ++ String.intercalate " | " (hd.map (fun _ => "---")) ++ " |") ::
           rest.map (fun row =>
             "| " ++ String.intercalate " | " (row.map cellStr) ++ " |"))) :=
  ⟨rfl, rfl, fun hd rest => rfl⟩

/-! ## Claim C7: per-image OCR failure isolation -/

/-- C7 general form: the OCR associator is the per-image filter-map of the
OCR outcome — a raising OCR call or a whitespace-only OCR output drops just
that image, keeping all others. -/
theorem process_images_with_ocr_eq_filterMap (images : List ImageRecord)
    (ocr : ImageRecord → Except String String) (page_num : Nat) :
    process_images_with_ocr images ocr page_num =
      images.filterMap (fun img =>
        match ocr img with
        | Except.error _ => none
        | Except.ok text =>
          if pyStrip text ≠ "" then
            some { image_number := img.image_number
                   page_number := page_num + 1
                   filename := img.filename
                   extracted_text := pyStrip text }
          else none) := by
  induction images with
  | nil => rfl
  | cons img rest ih =>
    simp only [process_images_with_ocr, process_images_with_ocr_go,
      List.filterMap_cons] at *
    cases ocr img with
    | error e => simpa using ih
    | ok text =>
      by_cases hs : pyStrip text ≠ "" <;> simp [hs, ih]

/-- The three images of the C7 scenario. -/
def c7_sample_images : List ImageRecord :=
  [{ image_number := 1, page_number := 1, filename := "page_1_image_1.png",
     path := "/tmp/pdf_extractor_x/page_1_image_1.png", width := 10, height := 10 },
   { image_number := 2, page_number := 1, filename := "page_1_image_2.png",
     path := "/tmp/pdf_extractor_x/page_1_image_2.png", width := 10, height := 10 },
   { image_number := 3, page_number := 1, filename := "page_1_image_3.png",
     path := "/tmp/pdf_extractor_x/page_1_image_3.png", width := 10, height := 10 }]

/-- An OCR function that raises on image 2 and recognizes text on the
others. -/
def c7_raising_ocr (img : ImageRecord) : Except String String :=
  if img.image_number = 2 then Except.error "tesseract failed"
  else if img.image_number = 1 then Except.ok "text one"
  else Except.ok "text three"

/-- An OCR function whose output on image 2 is only whitespace. -/
def c7_whitespace_ocr (img : ImageRecord) : Except String String :=
  if img.image_number = 2 then Except.ok "  \n " else Except.ok "text"

/-- C7: a raising OCR call or a whitespace-only OCR output drops exactly that
image and processing continues with the rest; in particular OCR raising on
image 2 of 3 yields exactly the two results for images 1 and 3 (and the
associator returns normally). -/
theorem c7_ocr_failure_isolation :
    (∀ (images : List ImageRecord) (ocr : ImageRecord → Except String String)
        (page_num : Nat),
      process_images_with_ocr images ocr page_num =
        images.filterMap (fun img =>
          match ocr img with
          | Except.error _ => none
          | Except.ok text =>
            if pyStrip text ≠ "" then
              some { image_number := img.image_number
                     page_number := page_num + 1
                     filename := img.filename
                     extracted_text := pyStrip text }
            else none)) ∧
    process_images_with_ocr c7_sample_images c7_raising_ocr 0 =
      [{ image_number := 1, page_number := 1, filename := "page_1_image_1.png",
         extracted_text := "text one" },
       { image_number := 3, page_number := 1, filename := "page_1_image_3.png",
         extracted_text := "text three" }] ∧
    (process_images_with_ocr c7_sample_images c7_raising_ocr 0).length = 2 ∧
    process_images_with_ocr c7_sample_images c7_whitespace_ocr 0 =
      [{ image_number := 1, page_number := 1, filename := "page_1_image_1.png",
         extracted_text := "text" },
       { image_number := 3, page_number := 1, filename := "page_1_image_3.png",
         extracted_text := "text" }] :=
  ⟨process_images_with_ocr_eq_filterMap, rfl, rfl, rfl⟩

/-! ## Claim C9: per-image extraction (corrected) -/

/-- A pixmap with one alpha channel and three color channels (RGBA): its
total component count `n` — alpha plus color channels — is 4. -/
def c9_rgba_pixmap : Pixmap :=
  { n := 4, alpha := 1, width := 10, height := 10 }

/-- C9 counterexample: an image whose alpha+color channel count `pix.n` is 4
is NOT skipped — the code tests `pix.n - pix.alpha < 4`, so the RGBA pixmap
(n = 4, alpha = 1, three color channels) is materialized and recorded. -/
theorem c9_counterexample :
    4 ≤ c9_rgba_pixmap.n ∧
    extract_page_images "/tmp/pdf_extractor_x" [Except.ok c9_rgba_pixmap] 0 =
      [{ image_number := 1, page_number := 1, filename := "page_1_image_1.png",
         path := "/tmp/pdf_extractor_x/page_1_image_1.png",
         width := 10, height := 10 }] :=
  ⟨by decide, rfl⟩

theorem extract_page_images_go_eq (td : String) (p : Nat)
    (imgs : List (Except String Pixmap)) (i : Nat) :
    extract_page_images_go td p i imgs =
      (imgs.enumFrom i).filterMap (fun pr =>
        match pr.2 with
        | Except.error _ => none
        | Except.ok pix =>
          if (pix.n : ℤ) - (pix.alpha : ℤ) < 4 then
            some { image_number := pr.1 + 1
                   page_number := p + 1
                   filename := image_filename p pr.1
                   path := td ++ "/" ++ image_filename p pr.1
                   width := pix.width
                   height := pix.height }
          else none) := by
  induction imgs generalizing i with
  | nil => rfl
  | cons r rest ih =>
    cases r with
    | error e => simp [extract_page_images_go, List.enumFrom, ih]
    | ok pix =>
      by_cases hc : ((pix.n : ℤ) - (pix.alpha : ℤ) < 4) <;>
        simp [extract_page_images_go, List.enumFrom, ih, hc]

/-- C9 amended: an image is skipped iff its color channel count excluding
alpha (`pix.n - pix.alpha`) is at least 4; every other materialized image is
recorded with its 1-based enumeration ordinal, pixel width and height, in
enumeration order, and a failing materialization skips only that image. -/
theorem c9_image_extraction_amended (td : String)
    (imgs : List (Except String Pixmap)) (p : Nat) :
    extract_page_images td imgs p =
      imgs.enum.filterMap (fun pr =>
        match pr.2 with
        | Except.error _ => none
        | Except.ok pix =>
          if (pix.n : ℤ) - (pix.alpha : ℤ) < 4 then
            some { image_number := pr.1 + 1
                   page_number := p + 1
                   filename := image_filename p pr.1
                   path := td ++ "/" ++ image_filename p pr.1
                   width := pix.width
                   height := pix.height }
          else none) :=
  extract_page_images_go_eq td p imgs 0

/-! ## Claim C10: short body blocks are dropped but still gate the H2 -/

theorem bind_body_filter (l : List BlockInfo)
    (hmem : ∀ b ∈ l, pyStrip b.text ≠ "") :
    (l.bind (fun b =>
        let t := pyStrip b.text
        if t ≠ "" ∧ 10 < t.length then [normWs t, ""] else [])) =
      ((l.filter (fun b => decide (10 < (pyStrip b.text).length))).bind
        (fun b => [normWs (pyStrip b.text), ""])) := by
  induction l with
  | nil => rfl
  | cons b t ih =>
    have hb : pyStrip b.text ≠ "" := hmem b (List.mem_cons_self b t)
    have ht : ∀ x ∈ t, pyStrip x.text ≠ "" :=
      fun x hx => hmem x (List.mem_cons_of_mem b hx)
    by_cases hlen : 10 < (pyStrip b.text).length
    · simp [List.filter_cons, hlen, hb, ih ht]
    · simp [List.filter_cons, hlen, hb, ih ht]

/-- C10: a regular-content (Body) block is emitted as a paragraph exactly when
its stripped text is longer than 10 characters — shorter blocks contribute
nothing to the body lines — yet any regular-content block (whose stripped
text is non-empty by construction) makes the page's H2 heading appear. -/
theorem c10_short_body_blocks (p : PageInfo) :
    body_lines_of p =
      ((regular_content_of p).filter
          (fun b => decide (10 < (pyStrip b.text).length))).bind
        (fun b => [normWs (pyStrip b.text), ""]) ∧
    (regular_content_of p ≠ [] → page_h2_cond p = true) := by
  constructor
  · unfold body_lines_of
    refine bind_body_filter _ ?_
    intro b hb
    have hcond := (List.mem_filter.mp hb).2
    simp only [Bool.and_eq_true, Bool.not_eq_true', beq_eq_false_iff_ne] at hcond
    exact hcond.2
  · intro hne
    simp [page_h2_cond, List.isEmpty_iff, hne]

/-- A Body block whose stripped text has only 4 characters. -/
def c10_short_block : BlockInfo :=
  { text := "tiny", page_number := 1, bbox := (0, 0, 10, 10), font_size := 11,
    is_bold := false, is_italic := false, is_header := false, header_level := 0,
    is_footer := false, is_page_header := false, is_footnote := false,
    y_position := 0 }

/-- A page whose only content is the 4-character Body block. -/
def c10_sample_page : PageInfo :=
  { page_number := 1, text_blocks := [c10_short_block], headers := [],
    tables := [], images := [], images_with_text := [], footnotes := [],
    page_headers := [], page_footers := [],
    structured_content := [c10_short_block], raw_text := "tiny" }

/-- C10 witness: the page carrying only a 4-character Body block gets its H2
heading, yet emits no body paragraph. -/
theorem c10_short_body_blocks_witness :
    page_h2_cond c10_sample_page = true ∧ body_lines_of c10_sample_page = [] := by
  have hmain := c10_short_body_blocks c10_sample_page
  refine ⟨hmain.2 (by decide), ?_⟩
  rw [hmain.1]
  rfl

/-! ## Claim C8: scratch-directory cleanup (corrected) -/

/-- C8 counterexample: a full `EnhancedPDFExtractor` lifetime — construction
creates the scratch directory, an extraction writes an image into it, then
the component's lifetime ends — leaves the scratch directory existing, on
every exit path: the class defines no cleanup operation and none of its
methods removes a path. -/
theorem c8_counterexample :
    (enhanced_extractor_run "/tmp/pdf_extractor_x"
        [["/tmp/pdf_extractor_x/page_1_image_1.png"]] []).contains
      "/tmp/pdf_extractor_x" = true := by
  decide

theorem mem_foldl_fs_step (x : String) :
    ∀ (calls : List (List String)) (a : List String),
      x ∈ a → x ∈ calls.foldl enhanced_extractor_fs_step a := by
  intro calls
  induction calls with
  | nil => exact fun a h => h
  | cons c t ih =>
    intro a h
    exact ih _ (List.mem_append_left c h)

/-- C8 amended: after `PDFExtractor.cleanup` runs, the scratch directory no
longer exists, whatever the prior filesystem state (so regardless of whether
an earlier extraction raised); but the `EnhancedPDFExtractor` has no cleanup
operation — its scratch directory still exists after any sequence of its
method calls, so deletion on all exit paths does not hold for every extractor
instance. -/
theorem c8_cleanup_amended :
    (∀ (temp_dir : String) (fs : List String),
      (pdf_extractor_cleanup temp_dir fs).contains temp_dir = false) ∧
    (∀ (temp_dir : String) (calls : List (List String)) (fs : List String),
      (enhanced_extractor_run temp_dir calls fs).contains temp_dir = true) := by
  constructor
  · intro td fs
    have hnot : td ∉ pdf_extractor_cleanup td fs := by
      intro hmem
      unfold pdf_extractor_cleanup at hmem
      by_cases hin : td ∈ fs
      · rw [if_pos hin] at hmem
        unfold shutil_rmtree at hmem
        have hcond := (List.mem_filter.mp hmem).2
        simp at hcond
      · rw [if_neg hin] at hmem
        exact hin hmem
    simpa using hnot
  · intro td calls fs
    have hmem : td ∈ enhanced_extractor_run td calls fs := by
      unfold enhanced_extractor_run
      exact mem_foldl_fs_step td calls _
        (by unfold tempfile_mkdtemp; exact List.mem_append_right fs (by simp))
    simpa using hmem

/-! ## Claim C4: Markdown rendering (corrected) -/

/-- Split a character list on newline characters (the physical lines of the
rendered output). -/
def splitOnNlChars : List Char → List (List Char)
  | [] => [[]]
  | c :: cs =>
    let r := splitOnNlChars cs
    if c = '\n' then [] :: r
    else
      match r with
      | [] => [[c]]
      | h :: t => (c :: h) :: t

/-- The physical lines of a rendered string. -/
def output_lines (s : String) : List String :=
  (splitOnNlChars s.toList).map String.mk

/-- A line is blank when it strips to the empty string (the test of the
cleanup loop, line 554). -/
def blankLine (s : String) : Bool :=
  pyStrip s == ""

/-- Does the line list contain two adjacent blank lines? -/
def anyAdjBlank : List String → Bool
  | a :: b :: t => (blankLine a && blankLine b) || anyAdjBlank (b :: t)
  | _ => false

/-- The head of the line list, if any, is not blank. -/
def headOk : List String → Bool
  | [] => true
  | a :: _ => !blankLine a

/-- The page of the C4 counterexample: one OCR result whose recognized text
(already stripped, as `_process_images_with_ocr` stores it) contains interior
blank lines. -/
def c4_sample_page : PageInfo :=
  { page_number := 1, text_blocks := [], headers := [], tables := [],
    images := [], images_with_text :=
      [{ image_number := 1, page_number := 1, filename := "page_1_image_1.png",
         extracted_text := "a\n\n\nb" }],
    footnotes := [], page_headers := [], page_footers := [],
    structured_content := [], raw_text := "" }

/-- The metadata of the C4 counterexample. -/
def c4_sample_meta : DocumentMetadata :=
  { file_name := "x.pdf", file_size := 0, title := "T", author := "",
    subject := "", keywords := "", creator := "", producer := "",
    creation_date := "", modification_date := "", total_pages := 1 }

/-- The document of the C4 counterexample, built by the real assembler. -/
def c4_sample_doc : DocumentModel :=
  extract_comprehensive c4_sample_meta [c4_sample_page]

/-- C4 counterexample: the rendered Markdown of the assembled document
contains a run of two consecutive blank lines — the cleanup loop collapses
blank entries of the emitted line list, but an OCR text emitted as a single
multi-line entry carries its interior blank lines into the final output
uncollapsed. -/
theorem c4_counterexample :
    anyAdjBlank (output_lines c4_sample_doc.markdown_content) = true := by
  rfl

theorem headOk_collapse_true (ls : List String) :
    headOk (collapse_blank_go true ls) = true := by
  induction ls with
  | nil => rfl
  | cons l t ih =>
    by_cases hb : pyStrip l = ""
    · simpa [collapse_blank_go, hb] using ih
    · simp [collapse_blank_go, hb, headOk, blankLine]

theorem anyAdjBlank_cons_of (a : String) (rest : List String)
    (hrest : anyAdjBlank rest = false)
    (hok : blankLine a = false ∨ headOk rest = true) :
    anyAdjBlank (a :: rest) = false := by
  cases rest with
  | nil => rfl
  | cons b t =>
    simp only [anyAdjBlank, Bool.or_eq_false_iff, Bool.and_eq_false_iff]
    refine ⟨?_, hrest⟩
    rcases hok with h | h
    · exact Or.inl h
    · simp only [headOk, Bool.not_eq_true'] at h
      exact Or.inr h

theorem collapse_no_adjacent_blank (ls : List String) :
    ∀ (prev : Bool), anyAdjBlank (collapse_blank_go prev ls) = false := by
  induction ls with
  | nil => intro prev; rfl
  | cons l t ih =>
    intro prev
    by_cases hb : pyStrip l = ""
    · cases prev with
      | true => simpa [collapse_blank_go, hb] using ih true
      | false =>
        have hout : collapse_blank_go false (l :: t) = l :: collapse_blank_go true t := by
          simp [collapse_blank_go, hb]
        rw [hout]
        exact anyAdjBlank_cons_of l _ (ih true) (Or.inr (headOk_collapse_true t))
    · have hout : collapse_blank_go prev (l :: t) = l :: collapse_blank_go false t := by
        simp [collapse_blank_go, hb]
      rw [hout]
      refine anyAdjBlank_cons_of l _ (ih false) (Or.inl ?_)
      simp [blankLine, hb]

/-- C4 amended: rendering is a deterministic pure function of the document
model (re-rendering yields a byte-identical string), and the blank-line
cleanup guarantees that no two consecutive entries of the final emitted line
list are blank; blank lines interior to a single emitted entry (OCR text,
table markdown) are not collapsed, so the byte output may still contain
blank-line runs. -/
theorem c4_markdown_deterministic_amended (m : DocumentModel) :
    generate_markdown m = generate_markdown m ∧
    generate_markdown m = String.intercalate "\n" (collapse_blank (markdown_lines m)) ∧
    anyAdjBlank (collapse_blank (markdown_lines m)) = false :=
  ⟨rfl, rfl, collapse_no_adjacent_blank (markdown_lines m) false⟩
